import Mathlib

/-!
Verification of the RigBooks transaction-classification and tax-aggregation
engine (Cape Bretoner's Oilfield Services bookkeeping app).

The development shallowly embeds the Python sources:
  helpers/transaction_classifier_OLD.py  (TransactionClassifier)
  helpers/gst_calculator.py              (GSTCalculator.calculate_period)
  helpers/revenue_simple.py              (calculate_revenue)
  helpers/shareholder_tracker.py         (ShareholderTracker)
  app.py                                 (classify_transaction / classify_dataframe,
                                          Revenue page channel masks, GST Filing page)

Monetary amounts are modelled as rationals; Python round(x, 2) is modelled as
round-half-to-even applied at two decimal places.  Regular-expression rules are
modelled by a small matcher covering exactly the constructs the rule table
uses: top-level alternation, literal substrings, the dot-star wildcard, and
one-or-more-digits.  Case-insensitive search is modelled by uppercasing both
the subject and the (already uppercase) pattern literals.
-/

namespace RigBooks

/- ### Rounding: Python round(x, 2) on rationals -/

/-- Computable floor of a rational, agreeing with Int.floor. -/
def qfloor (x : ℚ) : ℤ := x.num / (x.den : ℤ)

theorem qfloor_eq (x : ℚ) : qfloor x = ⌊x⌋ := Rat.floor_def.symm

/-- Round to the nearest integer, ties to even (Python banker rounding). -/
def roundHalfEven (x : ℚ) : ℤ :=
  if x - qfloor x < 1/2 then qfloor x
  else if 1/2 < x - qfloor x then qfloor x + 1
  else if qfloor x % 2 = 0 then qfloor x else qfloor x + 1

/-- Python round(x, 2): round to two decimal places, ties to even. -/
def round2 (x : ℚ) : ℚ := (roundHalfEven (100 * x) : ℚ) / 100

theorem roundHalfEven_le_floor_add_one (x : ℚ) : roundHalfEven x ≤ ⌊x⌋ + 1 := by
  rw [roundHalfEven, qfloor_eq]
  split_ifs <;> omega

theorem floor_le_roundHalfEven (x : ℚ) : ⌊x⌋ ≤ roundHalfEven x := by
  rw [roundHalfEven, qfloor_eq]
  split_ifs <;> omega

theorem roundHalfEven_mono {x y : ℚ} (h : x ≤ y) :
    roundHalfEven x ≤ roundHalfEven y := by
  rcases lt_or_eq_of_le (Int.floor_mono h) with hf | hf
  · calc roundHalfEven x ≤ ⌊x⌋ + 1 := roundHalfEven_le_floor_add_one x
      _ ≤ ⌊y⌋ := hf
      _ ≤ roundHalfEven y := floor_le_roundHalfEven y
  · rw [roundHalfEven, roundHalfEven, qfloor_eq, qfloor_eq, ← hf]
    have hxy : x - ⌊x⌋ ≤ y - ⌊x⌋ := by linarith
    split_ifs <;> first | omega | linarith

theorem roundHalfEven_nonneg {x : ℚ} (h : 0 ≤ x) : 0 ≤ roundHalfEven x := by
  have h2 := floor_le_roundHalfEven x
  have h3 : (0:ℤ) ≤ ⌊x⌋ := Int.floor_nonneg.mpr h
  omega

theorem round2_mono {x y : ℚ} (h : x ≤ y) : round2 x ≤ round2 y := by
  rw [round2, round2]
  have h1 := roundHalfEven_mono (by linarith : 100 * x ≤ 100 * y)
  have h2 : ((roundHalfEven (100 * x) : ℚ)) ≤ (roundHalfEven (100 * y) : ℚ) := by
    exact_mod_cast h1
  linarith

theorem round2_nonneg {x : ℚ} (h : 0 ≤ x) : 0 ≤ round2 x := by
  rw [round2]
  have h1 := roundHalfEven_nonneg (by linarith : (0:ℚ) ≤ 100 * x)
  have h2 : (0:ℚ) ≤ (roundHalfEven (100 * x) : ℚ) := by exact_mod_cast h1
  linarith

/- ### Strings and the pattern matcher -/

/-- Uppercase a string into its character list (Python str.upper on ASCII). -/
def upStr (s : String) : List Char := s.data.map Char.toUpper

def isPrefixList : List Char → List Char → Bool
  | [], _ => true
  | _ :: _, [] => false
  | a :: as, b :: bs => a == b && isPrefixList as bs

/-- Python substring containment: pat occurs somewhere in the subject. -/
def containsSub (pat : List Char) : List Char → Bool
  | [] => pat.isEmpty
  | c :: rest => isPrefixList pat (c :: rest) || containsSub pat rest

/-- One token of a regular-expression branch: a literal, dot-star, or
one-or-more digits.  These are the only constructs the rule table uses. -/
inductive RTok where
  | lit : List Char → RTok
  | dotStar : RTok
  | digits : RTok
deriving DecidableEq

def suffixes : List Char → List (List Char)
  | [] => [[]]
  | c :: cs => (c :: cs) :: suffixes cs

/-- Match a token sequence against a prefix of the subject. -/
def matchTs : List RTok → List Char → Bool
  | [], _ => true
  | RTok.lit l :: rest, cs => isPrefixList l cs && matchTs rest (cs.drop l.length)
  | RTok.dotStar :: rest, cs => (suffixes cs).any fun t => matchTs rest t
  | RTok.digits :: rest, cs =>
      (List.range cs.length).any fun k =>
        ((cs.take (k+1)).all Char.isDigit) && matchTs rest (cs.drop (k+1))

/-- Python re.search: some branch of the alternation matches at some
position of the subject. -/
def rsearch (branches : List (List RTok)) (cs : List Char) : Bool :=
  branches.any fun b => (suffixes cs).any fun t => matchTs b t

/-- An alternation of plain substring literals. -/
def lits (ss : List String) : List (List RTok) := ss.map fun s => [RTok.lit s.data]

/- ### TransactionClassifier (helpers/transaction_classifier_OLD.py) -/

/-- GST rate (TransactionClassifier.GST_RATE). -/
def GST_RATE : ℚ := 5/100

structure CatInfo where
  itc_eligible : Bool
  itc_rate : ℚ
deriving DecidableEq

/-- The twelve categories of TransactionClassifier.CATEGORIES carrying
itc_eligible = True with itc_rate 1.0. -/
def ITC_FULL_CATEGORIES : List String :=
  ["Fuel & Petroleum", "Vehicle Repairs & Maintenance", "Equipment & Supplies",
   "Subcontractor Payments", "Office Expenses", "Professional Fees",
   "Telephone & Communications", "Travel", "Rent - Commercial", "Utilities",
   "CCA - Capital Asset", "Other Expense"]

/-- TransactionClassifier.CATEGORIES as a function, with the Python dict .get
default of no eligibility and rate 0 for unknown names.  The dict maps the
twelve ITC_FULL_CATEGORIES to eligibility with rate 1.0, Meals &
Entertainment (50%) to eligibility with rate 0.5, and its thirteen remaining
entries (Revenue - Oilfield Services, Insurance - Business, Bank Charges &
Interest, Wages & Salaries, Shareholder Distribution, Shareholder Loan -
Personal Expense, both Loan Payment entries, GST Remittance, Income Tax
Installment, GST Refund, Transfer - Non-Taxable) to no eligibility with
rate 0, which coincides with the default. -/
def CATEGORIES (c : String) : CatInfo :=
  if c ∈ ITC_FULL_CATEGORIES then ⟨true, 1⟩
  else if c = "Meals & Entertainment (50%)" then ⟨true, 1/2⟩
  else ⟨false, 0⟩

/-- One entry of TransactionClassifier.CLASSIFICATION_RULES:
(pattern, category, is_personal, needs_review). -/
structure Rule where
  pattern : List (List RTok)
  category : String
  is_personal : Bool
  needs_review : Bool
deriving DecidableEq

/-- TransactionClassifier.CLASSIFICATION_RULES, in source order.  Lowercase
pattern literals are transcribed uppercase because matching uppercases the
subject and uses re.IGNORECASE. -/
def CLASSIFICATION_RULES : List Rule := [
  ⟨[[RTok.lit "WIRE TSF".data, RTok.dotStar, RTok.lit "PRICEWATERHOUSE".data],
    [RTok.lit "LONG RUN".data], [RTok.lit "CONTRACTOR INV".data]],
    "Revenue - Oilfield Services", false, false⟩,
  ⟨[[RTok.lit "WIRE TSF".data, RTok.dotStar, RTok.lit "EXPLORATION".data]],
    "Revenue - Oilfield Services", false, false⟩,
  ⟨lits ["MOBILE DEPOSIT"], "Revenue - Oilfield Services", false, true⟩,
  ⟨[[RTok.lit "E-TRANSFER".data, RTok.dotStar, RTok.lit "PAULA GOUR".data]],
    "Revenue - Oilfield Services", false, false⟩,
  ⟨[[RTok.lit "E-TRANSFER".data, RTok.dotStar, RTok.lit "ANGELA HENDERSON".data]],
    "Revenue - Oilfield Services", false, false⟩,
  ⟨[[RTok.lit "INTERNET TRANSFER".data, RTok.dotStar, RTok.lit "TO:".data,
     RTok.dotStar, RTok.lit "00099".data, RTok.dotStar, RTok.lit "78-83439".data]],
    "Shareholder Distribution", false, false⟩,
  ⟨[[RTok.lit "E-TRANSFER".data, RTok.dotStar, RTok.lit "LILIBETH SEJERA".data]],
    "Shareholder Distribution", false, false⟩,
  ⟨lits ["ATM WITHDRAWAL", "ABM WITHDRAWAL"], "Shareholder Distribution", false, false⟩,
  ⟨[[RTok.lit "BRANCH".data, RTok.dotStar, RTok.lit "WITHDRAWAL".data]],
    "Shareholder Distribution", false, false⟩,
  ⟨[[RTok.lit "TD ON-LINE LOANS".data],
    [RTok.lit "LOAN PAYMENT".data, RTok.dotStar, RTok.lit "TD".data]],
    "Loan Payment - Business Vehicle", false, false⟩,
  ⟨[[RTok.lit "LOAN PAYMENT".data, RTok.dotStar, RTok.lit "SCOTIA BANK".data],
    [RTok.lit "SCOTIA BANK".data, RTok.dotStar, RTok.lit "LOAN".data]],
    "Loan Payment - Personal", true, false⟩,
  ⟨lits ["RENT@REALTYFOCUS", "RENT@REALTYEXECUTIVES", "REALTYFOCUS"],
    "Rent - Commercial", false, false⟩,
  ⟨[[RTok.lit "ACCOUNT FEE".data], [RTok.lit "SERVICE CHARGE".data],
    [RTok.lit "MONTHLY".data, RTok.dotStar, RTok.lit "FEE".data],
    [RTok.lit "OVERDRAFT".data, RTok.dotStar, RTok.lit "FEE".data],
    [RTok.lit "NSF".data], [RTok.lit "OVER LIMIT".data]],
    "Bank Charges & Interest", false, false⟩,
  ⟨lits ["OVERDRAFT INTEREST", "INTEREST CHARGE"], "Bank Charges & Interest", false, false⟩,
  ⟨[[RTok.lit "DEBIT MEMO".data, RTok.dotStar, RTok.lit "GOVERNMENT".data],
    [RTok.lit "GPFS".data, RTok.dotStar, RTok.lit "GOVERNMENT".data]],
    "GST Remittance", false, false⟩,
  ⟨lits ["MANULIFE"], "Insurance - Business", false, false⟩,
  ⟨lits ["KOODO", "TELUS", "BELL", "ROGERS", "FIDO"],
    "Telephone & Communications", false, false⟩,
  ⟨lits ["PETRO-CANADA", "PETRO CANADA", "SHELL", "ESSO", "CHEVRON", "CENTEX",
    "MOBIL", "DOMO GAS"], "Fuel & Petroleum", false, false⟩,
  ⟨[[RTok.lit "FAS GA".data], [RTok.lit "FGP".data, RTok.digits]],
    "Fuel & Petroleum", false, false⟩,
  ⟨[[RTok.lit "CO-OP".data, RTok.dotStar, RTok.lit "BRIN".data],
    [RTok.lit "NC CO-OP".data], [RTok.lit "CIRCLE K".data]],
    "Fuel & Petroleum", false, false⟩,
  ⟨lits ["REDWATER ESSO", "BRUDERHEIM ESSO"], "Fuel & Petroleum", false, false⟩,
  ⟨lits ["OK TIRE", "NAPA", "PART SOURCE", "JIFFY LUBE"],
    "Vehicle Repairs & Maintenance", false, false⟩,
  ⟨lits ["CANADIAN TIRE"], "Vehicle Repairs & Maintenance", false, true⟩,
  ⟨lits ["REDWATER REGIST", "REGISTRY"], "Vehicle Repairs & Maintenance", false, false⟩,
  ⟨lits ["PRINCESS AUTO"], "Equipment & Supplies", false, false⟩,
  ⟨lits ["HOME HARDWARE", "WESTLOCK HOME", "REDWATER HOME"],
    "Equipment & Supplies", false, false⟩,
  ⟨lits ["COSTCO BUSINESS"], "Equipment & Supplies", false, false⟩,
  ⟨lits ["NOTARY", "LAWYER", "LEGAL", "ACCOUNTANT", "CPA", "BOOKKEEP"],
    "Professional Fees", false, false⟩,
  ⟨lits ["EDMONTON NOTARY"], "Professional Fees", false, false⟩,
  ⟨lits ["WORKERS COMP", "WCB"], "Professional Fees", false, false⟩,
  ⟨lits ["TIM HORTONS"], "Meals & Entertainment (50%)", false, false⟩,
  ⟨lits ["A&W ", "MCDONALD", "WENDY", "SUBWAY"], "Meals & Entertainment (50%)", false, false⟩,
  ⟨[[RTok.lit "ACHTI".data, RTok.dotStar, RTok.lit "STEAK".data],
    [RTok.lit "RAINBOW RESTAUR".data], [RTok.lit "UPTOWN PIZZA".data]],
    "Meals & Entertainment (50%)", false, false⟩,
  ⟨lits ["JOEY", "DQ GRILL"], "Meals & Entertainment (50%)", false, false⟩,
  ⟨lits ["LIQUOR", "WINE RACK", "BEER STORE"],
    "Shareholder Loan - Personal Expense", true, false⟩,
  ⟨lits ["CANNABIS", "GREEN SOLUTION", "KURVE CANNABIS", "PLANTLIFE", "THC",
    "CANNA CABANA"], "Shareholder Loan - Personal Expense", true, false⟩,
  ⟨lits ["IKEA"], "Shareholder Loan - Personal Expense", true, false⟩,
  ⟨lits ["LITTLE STEPS", "DAYCARE", "CHILD CARE"],
    "Shareholder Loan - Personal Expense", true, false⟩,
  ⟨lits ["IGA", "REDWATER IGA", "GROCERY", "SUPERMARKET", "SAFEWAY",
    "SUPERSTORE", "T&T SUPERMARKET"], "Shareholder Loan - Personal Expense", true, false⟩,
  ⟨lits ["HOLDEN COLONY"], "Shareholder Loan - Personal Expense", true, false⟩,
  ⟨lits ["WALMART"], "Shareholder Loan - Personal Expense", true, true⟩,
  ⟨lits ["DOLLARAMA"], "Shareholder Loan - Personal Expense", true, true⟩,
  ⟨lits ["VALUE VILLAGE", "GOODWILL", "URBAN PLANET"],
    "Shareholder Loan - Personal Expense", true, false⟩,
  ⟨lits ["RED APPLE"], "Shareholder Loan - Personal Expense", true, false⟩,
  ⟨lits ["BARBER", "SALON", "NAILS", "BROW BAR"],
    "Shareholder Loan - Personal Expense", true, false⟩,
  ⟨[[RTok.lit "MANILA GRILL".data], [RTok.lit "JOLLIBEE".data],
    [RTok.lit "SEAFOOD CITY".data], [RTok.lit "KOKORIKO".data], [RTok.lit "PHO".data],
    [RTok.lit "GIGA".data, RTok.dotStar, RTok.lit "PINOY".data]],
    "Shareholder Loan - Personal Expense", true, false⟩,
  ⟨lits ["BUFFET ROYALE", "YANG MING", "KHAN RESTAURANT"],
    "Shareholder Loan - Personal Expense", true, false⟩,
  ⟨lits ["AMAZON", "TEMU", "IHERB", "ETSY"],
    "Shareholder Loan - Personal Expense", true, true⟩,
  ⟨lits ["SNOW VALLEY", "KICKS SALOO", "VENUE"],
    "Shareholder Loan - Personal Expense", true, false⟩,
  ⟨lits ["E-TRANSFER", "INTERNET TRANSFER"], "Transfer - Non-Taxable", false, true⟩,
  ⟨lits ["DEPOSIT"], "Transfer - Non-Taxable", false, true⟩]

/-- First rule of CLASSIFICATION_RULES whose pattern matches the uppercased
description (the for loop with early return in classify_transaction). -/
def firstRuleMatch (du : List Char) : Option Rule :=
  CLASSIFICATION_RULES.find? fun r => rsearch r.pattern du

/-- The classification record classify_transaction returns. -/
structure Classification where
  cra_category : String
  is_personal : Bool
  needs_review : Bool
  itc_amount : ℚ
  notes : String
deriving DecidableEq

/-- TransactionClassifier.classify_transaction. -/
def classify_transaction (description : String) (debit credit : ℚ) : Classification :=
  let du := upStr description
  if containsSub "GOVERNMENT CANADA".data du then
    if 0 < credit then
      ⟨"GST Refund", false, false, 0, "Government credit - GST refund or carbon rebate"⟩
    else
      ⟨"Income Tax Installment", false, false, 0, "Tax installment"⟩
  else
    match firstRuleMatch du with
    | some r =>
        let info := CATEGORIES r.category
        let itc : ℚ :=
          if info.itc_eligible = true ∧ 0 < debit ∧ r.is_personal = false then
            debit * (GST_RATE / (1 + GST_RATE)) * info.itc_rate
          else 0
        let rev : Bool :=
          if 500 ≤ debit ∧ (r.category = "Equipment & Supplies" ∨
              r.category = "Vehicle Repairs & Maintenance") then true
          else r.needs_review
        ⟨r.category, r.is_personal, rev, round2 itc, ""⟩
    | none =>
        if 0 < credit then
          ⟨"Revenue - Oilfield Services", false, true, 0, "Unclassified credit - review"⟩
        else
          ⟨"Other Expense", false, true, round2 (debit * (GST_RATE / (1 + GST_RATE))),
            "Unclassified - review"⟩

/- ### DataFrame rows and batch classification -/

/-- One row of the working DataFrame: the four bank-statement columns plus the
columns the two classifiers write (cra_category, is_personal, needs_review,
itc_amount, notes from the TransactionClassifier; itc_pct from app.py). -/
structure Row where
  date : String
  description : String
  debit : ℚ
  credit : ℚ
  cra_category : String
  is_personal : Bool
  needs_review : Bool
  itc_amount : ℚ
  notes : String
  itc_pct : ℚ
deriving DecidableEq

/-- The pandas drop_duplicates subset key of classify_dataframe. -/
def rowKey (r : Row) : String × String × ℚ × ℚ := (r.date, r.description, r.debit, r.credit)

/-- drop_duplicates with keep=first over an explicit seen-key accumulator. -/
def dedupKeyAux (seen : List (String × String × ℚ × ℚ)) : List Row → List Row
  | [] => []
  | r :: rest =>
      if rowKey r ∈ seen then dedupKeyAux seen rest
      else r :: dedupKeyAux (rowKey r :: seen) rest

/-- df.drop_duplicates(subset=[date, description, debit, credit], keep=first). -/
def dedupKey (rs : List Row) : List Row := dedupKeyAux [] rs

/-- Write one classify_transaction result into its row. -/
def classifyRow (r : Row) : Row :=
  let c := classify_transaction r.description r.debit r.credit
  { r with cra_category := c.cra_category, is_personal := c.is_personal,
           needs_review := c.needs_review, itc_amount := c.itc_amount,
           notes := c.notes }

/-- TransactionClassifier.classify_dataframe: drop duplicate
(date, description, debit, credit) rows keeping the first, then classify
every remaining row from its own description, debit and credit. -/
def classify_dataframe (df : List Row) : List Row := (dedupKey df).map classifyRow

/- ### The inline classifier of app.py (classify_transaction / classify_dataframe) -/

/-- app.py REVENUE_KEYWORDS. -/
def REVENUE_KEYWORDS : List String :=
  ["WIRE TSF", "MOBILE DEP", "BRANCH DEP", "DEPOSIT", "E-TRANSFER", "INTERAC"]

/-- app.py CRA_CATEGORIES: (name, keywords, itc_pct), in dict order. -/
def APP_CATEGORIES : List (String × List String × ℚ) := [
  ("Fuel & Petroleum", ["SHELL", "ESSO", "PETRO", "HUSKY", "GAS", "FUEL", "PIONEER",
    "MOBIL", "CHEVRON", "CO-OP", "CENTEX", "DOMO", "FAS GA", "FGP", "CIRCLE K"], 1),
  ("Vehicle Repairs", ["CANADIAN TIRE", "NAPA", "LORDCO", "KAL TIRE", "OK TIRE",
    "JIFFY", "PART SOURCE", "CARWASH", "REGISTR"], 1),
  ("Meals (50% ITC)", ["TIM HORTON", "SUBWAY", "MCDON", "A&W", "WENDY", "BOSTON PIZZA",
    "DENNY", "SMITTY", "RESTAURANT", "DAIRY QUEEN", "ACHTI", "PIZZA", "CAFE", "COFFEE",
    "J&R DRIVE"], 1/2),
  ("Equipment & Supplies", ["OFFICE", "STAPLES", "WALMART", "COSTCO", "HOME DEPOT",
    "LOWES", "MARKS WORK", "PRINCESS AUTO", "HOME HARDWARE"], 1),
  ("Insurance", ["INSURANCE", "INTACT", "MANULIFE", "WAWANESA"], 0),
  ("Professional Fees", ["LAWYER", "LEGAL", "ACCOUNTANT", "CPA", "BOOKKEEP", "NOTARY",
    "WCB", "WORKERS COMP"], 1),
  ("Bank Charges", ["BANK FEE", "SERVICE CHARGE", "INTEREST", "NSF", "MONTHLY FEE",
    "BANK CHARGE"], 0),
  ("Telephone", ["KOODO", "TELUS", "BELL", "ROGERS", "FIDO"], 1),
  ("Rent", ["RENT", "REALTYFOCUS", "LANDLORD"], 0),
  ("Utilities", ["ATCO", "EPCOR", "ENMAX", "DIRECT ENERGY", "FORTIS"], 1),
  ("Subcontractor", ["SUBCONTRACT"], 1),
  ("Wages & Payroll", ["PAYROLL", "SALARY", "WAGES"], 0),
  ("GST Remittance", ["RECEIVER GENERAL", "GST", "CRA", "GOVERNMENT"], 0),
  ("Loan Payment", ["LOAN", "FINANCING", "LEASE PMT"], 0),
  ("Shareholder Distribution", ["LILIBETH", "SEJERA", "GREG", "MACDONALD"], 0)]

/-- app.py classify_transaction(desc): revenue keywords first, then the first
category whose keyword list hits, else Other / Unclassified with pct 1. -/
def app_classify (desc : String) : String × ℚ :=
  let du := upStr desc
  if REVENUE_KEYWORDS.any fun k => containsSub k.data du then ("Revenue", 0)
  else
    match APP_CATEGORIES.find? fun e => e.2.1.any fun k => containsSub k.data du with
    | some e => (e.1, e.2.2)
    | none => ("Other / Unclassified", 1)

/-- One row of app.py classify_dataframe: category and itc_pct from the
description, itc_amount = debit * itc_pct * 0.05 / 1.05, forced to 0 on
Revenue rows by the final df.loc assignment. -/
def app_classifyRow (r : Row) : Row :=
  let p := app_classify r.description
  { r with cra_category := p.1, itc_pct := p.2,
           itc_amount := if p.1 = "Revenue" then 0
                         else r.debit * p.2 * (5/100) / (105/100) }

/-- app.py classify_dataframe. -/
def app_classify_dataframe (df : List Row) : List Row := df.map app_classifyRow

/- ### GSTCalculator.calculate_period (helpers/gst_calculator.py) -/

def TAXABLE_REVENUE_CATEGORIES : List String := ["Revenue - Oilfield Services"]

def EXEMPT_REVENUE_CATEGORIES : List String := ["Transfer - Non-Taxable", "GST Refund"]

/-- Optional date-range filter of calculate_period; ISO date strings compare
by their lexicographic order, matching pd.to_datetime order. -/
def filterPeriod (df : List Row) (sd ed : Option String) : List Row :=
  let d1 := match sd with
    | none => df
    | some s => df.filter fun r => s ≤ r.date
  match ed with
  | none => d1
  | some e => d1.filter fun r => r.date ≤ e

/-- Gross taxable revenue of a period: credits of rows in the taxable revenue
categories. -/
def taxableRevenueSum (df : List Row) : ℚ :=
  ((df.filter fun r => r.cra_category ∈ TAXABLE_REVENUE_CATEGORIES ∧ 0 < r.credit).map
    fun r => r.credit).sum

def exemptRevenueSum (df : List Row) : ℚ :=
  ((df.filter fun r => r.cra_category ∈ EXEMPT_REVENUE_CATEGORIES ∧ 0 < r.credit).map
    fun r => r.credit).sum

/-- One ITC group of GSTCalculator.ITC_GROUPS: itc_amount summed over
non-personal rows with a category of the group. -/
def groupITC (df : List Row) (cats : List String) : ℚ :=
  ((df.filter fun r => r.cra_category ∈ cats ∧ r.is_personal = false).map
    fun r => r.itc_amount).sum

structure GSTPeriodResult where
  total_revenue : ℚ
  exempt_revenue : ℚ
  gst_collected : ℚ
  itc_fuel : ℚ
  itc_equipment : ℚ
  itc_professional : ℚ
  itc_meals : ℚ
  itc_other : ℚ
  total_itc : ℚ
  net_gst : ℚ
deriving DecidableEq

/-- GSTCalculator.calculate_period.  GST collected is taken out of the
(unrounded) taxable revenue with the inclusive convention, and each reported
figure is rounded to two decimals; total_itc sums the unrounded groups. -/
def calculate_period (df : List Row) (sd ed : Option String) : GSTPeriodResult :=
  let d := filterPeriod df sd ed
  let total_revenue := taxableRevenueSum d
  let exempt_revenue := exemptRevenueSum d
  let gst_collected := total_revenue * (GST_RATE / (1 + GST_RATE))
  let fuel := groupITC d ["Fuel & Petroleum"]
  let equip := groupITC d ["Equipment & Supplies", "Vehicle Repairs & Maintenance",
    "CCA - Capital Asset"]
  let prof := groupITC d ["Professional Fees"]
  let meals := groupITC d ["Meals & Entertainment (50%)"]
  let other := groupITC d ["Office Expenses", "Telephone & Communications", "Travel",
    "Rent - Commercial", "Utilities", "Other Expense", "Subcontractor Payments"]
  let total_itc := fuel + equip + prof + meals + other
  ⟨round2 total_revenue, round2 exempt_revenue, round2 gst_collected,
   round2 fuel, round2 equip, round2 prof, round2 meals, round2 other,
   round2 total_itc, round2 (gst_collected - total_itc)⟩

/- ### The GST Filing page of app.py (lines 918-920) -/

/-- Line 101 revenue of the GST Filing page: the sum of all positive credits. -/
def page_revenue (df : List Row) : ℚ :=
  ((df.filter fun r => 0 < r.credit).map fun r => r.credit).sum

/-- Line 105 of the GST Filing page: gst_collected = revenue * 0.05. -/
def page_gst_collected (df : List Row) : ℚ := page_revenue df * (5/100)

/-- Spec formula (section 3), written from the spec wording: GST embedded in a
GST-inclusive revenue amount. -/
def spec_gst_inclusive (R : ℚ) : ℚ := R * (GST_RATE / (1 + GST_RATE))

/-- Spec formula (section 3), written from the spec wording: GST on a
GST-exclusive revenue amount. -/
def spec_gst_exclusive (R : ℚ) : ℚ := R * GST_RATE

/- ### Revenue extractor (helpers/revenue_simple.py) -/

/-- pandas drop_duplicates() with no subset: keep the first of rows equal in
every column. -/
def dedupFullAux (seen : List Row) : List Row → List Row
  | [] => []
  | r :: rest =>
      if r ∈ seen then dedupFullAux seen rest
      else r :: dedupFullAux (r :: seen) rest

def dedupFull (rs : List Row) : List Row := dedupFullAux [] rs

/-- Wire channel mask of calculate_revenue: positive credit and WIRE TSF in
the description. -/
def rsWireMask (r : Row) : Prop :=
  0 < r.credit ∧ containsSub "WIRE TSF".data (upStr r.description) = true

/-- Mobile channel mask of calculate_revenue. -/
def rsMobileMask (r : Row) : Prop :=
  0 < r.credit ∧ containsSub "MOBILE DEPOSIT".data (upStr r.description) = true

/-- Branch channel mask of calculate_revenue. -/
def rsBranchMask (r : Row) : Prop :=
  0 < r.credit ∧ (containsSub "BRANCH DEPOSIT".data (upStr r.description) = true ∨
    containsSub "COUNTER DEPOSIT".data (upStr r.description) = true ∨
    containsSub "DEPOSIT IN BRANCH".data (upStr r.description) = true)

instance (r : Row) : Decidable (rsWireMask r) := by unfold rsWireMask; infer_instance
instance (r : Row) : Decidable (rsMobileMask r) := by unfold rsMobileMask; infer_instance
instance (r : Row) : Decidable (rsBranchMask r) := by unfold rsBranchMask; infer_instance

structure RevenueResult where
  wire_total : ℚ
  mobile_total : ℚ
  branch_total : ℚ
  total : ℚ
  wire_count : ℕ
  mobile_count : ℕ
  branch_count : ℕ
  total_transactions : ℕ
  wire_df : List Row
  mobile_df : List Row
  branch_df : List Row
deriving DecidableEq

/-- revenue_simple.calculate_revenue: three independent channel masks, each
deduplicated over whole rows, summed and counted; total is their sum. -/
def calculate_revenue (df : List Row) : RevenueResult :=
  let wire_df := dedupFull (df.filter fun r => rsWireMask r)
  let mobile_df := dedupFull (df.filter fun r => rsMobileMask r)
  let branch_df := dedupFull (df.filter fun r => rsBranchMask r)
  let wire_total := (wire_df.map fun r => r.credit).sum
  let mobile_total := (mobile_df.map fun r => r.credit).sum
  let branch_total := (branch_df.map fun r => r.credit).sum
  ⟨wire_total, mobile_total, branch_total, wire_total + mobile_total + branch_total,
   wire_df.length, mobile_df.length, branch_df.length,
   wire_df.length + mobile_df.length + branch_df.length,
   wire_df, mobile_df, branch_df⟩

/- ### Revenue page channel masks of app.py (lines 423-427) -/

def wireK (d : String) : Bool := containsSub "WIRE TSF".data (upStr d)
def mobileK (d : String) : Bool := containsSub "MOBILE DEP".data (upStr d)
def branchK (d : String) : Bool :=
  containsSub "BRANCH DEP".data (upStr d) || containsSub "DEPOSIT".data (upStr d)
def etransK (d : String) : Bool :=
  containsSub "E-TRANSFER".data (upStr d) || containsSub "INTERAC".data (upStr d)

def wire_mask (d : String) : Bool := wireK d
def mobile_mask (d : String) : Bool := mobileK d && !wire_mask d
def branch_mask (d : String) : Bool := branchK d && !wire_mask d && !mobile_mask d
def etransfer_mask (d : String) : Bool :=
  etransK d && !wire_mask d && !mobile_mask d && !branch_mask d
def other_mask (d : String) : Bool :=
  !wire_mask d && !mobile_mask d && !branch_mask d && !etransfer_mask d

/- ### ShareholderTracker (helpers/shareholder_tracker.py) -/

/-- One shareholder-loan transaction record appended by the tracker. -/
structure STxn where
  date : String
  description : String
  ttype : String
  amount : ℚ
  source : String
  note : String
deriving DecidableEq

/-- GREG_TRANSFER_PATTERNS. -/
def GREG_TRANSFER_PATTERNS : List (List (List RTok)) := [
  [[RTok.lit "INTERNET TRANSFER".data, RTok.dotStar, RTok.lit "TO:".data,
    RTok.dotStar, RTok.lit "00099".data, RTok.dotStar, RTok.lit "78-83439".data]],
  [[RTok.lit "INTERNET TRANSFER".data, RTok.dotStar, RTok.lit "000000".data,
    RTok.digits, RTok.dotStar, RTok.lit "TO:".data]]]

/-- LILIBETH_TRANSFER_PATTERNS. -/
def LILIBETH_TRANSFER_PATTERNS : List (List (List RTok)) := [
  [[RTok.lit "E-TRANSFER".data, RTok.dotStar, RTok.lit "LILIBETH SEJERA".data]],
  [[RTok.lit "E-TRANSFER".data, RTok.dotStar, RTok.lit "LILIBETH".data]]]

/-- PERSONAL_EXPENSE_PATTERNS: (pattern, category). -/
def PERSONAL_EXPENSE_PATTERNS : List ((List (List RTok)) × String) := [
  (lits ["LIQUOR", "WINE", "CANNABIS", "GREEN SOLUTION"], "Personal - Alcohol/Cannabis"),
  (lits ["IKEA"], "Personal - Furniture"),
  (lits ["LITTLE STEPS", "DAYCARE"], "Personal - Childcare"),
  (lits ["IGA", "GROCERY", "SUPERMARKET", "SAFEWAY"], "Personal - Groceries"),
  (lits ["RESTAURANT", "PIZZA", "BUFFET", "STEAK"], "Personal - Dining (non-business)"),
  (lits ["VALUE VILLAGE", "GOODWILL"], "Personal - Clothing"),
  (lits ["BARBER", "SALON", "NAILS"], "Personal - Grooming")]

def matchesAnyPattern (pats : List (List (List RTok))) (desc : String) : Bool :=
  pats.any fun p => rsearch p (upStr desc)

/-- The first transfer loop of process_transfers: rows matching one of the
shareholder's patterns with a positive debit become withdrawals. -/
def transferLoop (pats : List (List (List RTok))) : List Row → ℚ × List STxn
  | [] => (0, [])
  | r :: rest =>
      let t := transferLoop pats rest
      if matchesAnyPattern pats r.description ∧ 0 < r.debit then
        (r.debit + t.1,
         ⟨r.date, r.description, "Distribution/Withdrawal", r.debit,
          "Corporate Account", ""⟩ :: t.2)
      else t

/-- The ATM loop of process_transfers (lines 113-131): every ATM/ABM
withdrawal with a positive debit, regardless of the shareholder argument. -/
def atmLoop : List Row → ℚ × List STxn
  | [] => (0, [])
  | r :: rest =>
      let t := atmLoop rest
      let du := upStr r.description
      if (containsSub "ATM WITHDRAWAL".data du || containsSub "ABM WITHDRAWAL".data du) = true
          ∧ 0 < r.debit then
        (r.debit + t.1,
         ⟨r.date, r.description, "Cash Withdrawal (ATM)", r.debit, "Corporate Account",
          "Review: Assign to correct shareholder"⟩ :: t.2)
      else t

structure TransferResult where
  greg_withdrawals : ℚ
  lilibeth_withdrawals : ℚ
  greg_txns : List STxn
  lilibeth_txns : List STxn
deriving DecidableEq

/-- ShareholderTracker.process_transfers: the pattern loop books to the named
shareholder; the ATM loop always books to Greg ("Default to Greg as primary
operator"). -/
def process_transfers (df : List Row) (shareholder : String) : TransferResult :=
  let pats := if shareholder = "Greg" then GREG_TRANSFER_PATTERNS
              else LILIBETH_TRANSFER_PATTERNS
  let l1 := transferLoop pats df
  let l2 := atmLoop df
  if shareholder = "Greg" then ⟨l1.1 + l2.1, 0, l1.2 ++ l2.2, []⟩
  else ⟨l2.1, l1.1, l2.2, l1.2⟩

/-- First personal-expense pattern hit of a description. -/
def personalCat (desc : String) : Option String :=
  (PERSONAL_EXPENSE_PATTERNS.find? fun p => rsearch p.1 (upStr desc)).map fun p => p.2

structure PersonalResult where
  greg_personal : ℚ
  lilibeth_personal : ℚ
  greg_txns : List STxn
  lilibeth_txns : List STxn
deriving DecidableEq

/-- The review note the tracker puts on every ownership-split allocation. -/
def splitNote : String := "Allocated by ownership % - verify assignment"

/-- ShareholderTracker.process_personal_expenses: each nonzero-debit row whose
description hits a personal-expense pattern is split 49% to Greg and 51% to
Lilibeth, both sides tagged with the ownership-split review note. -/
def process_personal_expenses : List Row → PersonalResult
  | [] => ⟨0, 0, [], []⟩
  | r :: rest =>
      let t := process_personal_expenses rest
      if r.debit = 0 then t
      else
        match personalCat r.description with
        | none => t
        | some cat =>
            let g := r.debit * (49/100)
            let l := r.debit * (51/100)
            ⟨g + t.greg_personal, l + t.lilibeth_personal,
             ⟨r.date, r.description, "Personal Expense - " ++ cat, g,
              "Corporate Account", splitNote⟩ :: t.greg_txns,
             ⟨r.date, r.description, "Personal Expense - " ++ cat, l,
              "Corporate Account", splitNote⟩ :: t.lilibeth_txns⟩

/-- The debits process_personal_expenses allocates: nonzero-debit rows whose
description hits a personal-expense pattern. -/
def personalBase (df : List Row) : ℚ :=
  ((df.filter fun r => r.debit ≠ 0 ∧ (personalCat r.description).isSome).map
    fun r => r.debit).sum

/- ### Supporting lemmas -/

theorem CATEGORIES_eq_cases (c : String) :
    CATEGORIES c = ⟨false, 0⟩ ∨ CATEGORIES c = ⟨true, 1⟩ ∨ CATEGORIES c = ⟨true, 1/2⟩ := by
  rw [CATEGORIES]
  split_ifs <;> simp

theorem CATEGORIES_rate_nonneg (c : String) : 0 ≤ (CATEGORIES c).itc_rate := by
  rcases CATEGORIES_eq_cases c with h | h | h <;> rw [h] <;> norm_num

theorem CATEGORIES_rate_le_one (c : String) : (CATEGORIES c).itc_rate ≤ 1 := by
  rcases CATEGORIES_eq_cases c with h | h | h <;> rw [h] <;> norm_num

/- ### Claim C3 -/

/-- Claim C3: whenever the category the classifier assigns is ITC-eligible and
the transaction is not flagged personal and the debit is positive, the stored
itc_amount is debit * (0.05 / 1.05) * itc_rate rounded to two decimals; in
particular a 105.00 debit at SHELL (Fuel & Petroleum, rate 1) stores 5.00 and
a 21.00 debit at TIM HORTONS (Meals, rate 0.5) stores 0.50. -/
theorem claim3_itc_formula :
    (∀ (description : String) (debit credit : ℚ),
      (CATEGORIES (classify_transaction description debit credit).cra_category).itc_eligible
        = true →
      (classify_transaction description debit credit).is_personal = false →
      0 < debit →
      (classify_transaction description debit credit).itc_amount =
        round2 (debit * (GST_RATE / (1 + GST_RATE)) *
          (CATEGORIES (classify_transaction description debit credit).cra_category).itc_rate)) ∧
    (classify_transaction "SHELL GAS BAR" 105 0).cra_category = "Fuel & Petroleum" ∧
    (classify_transaction "SHELL GAS BAR" 105 0).itc_amount = 5 ∧
    (classify_transaction "TIM HORTONS #123" 21 0).cra_category
      = "Meals & Entertainment (50%)" ∧
    (classify_transaction "TIM HORTONS #123" 21 0).itc_amount = 1/2 := by
  refine ⟨?_, ?_, ?_, ?_, ?_⟩
  · intro description debit credit heli hper hd
    by_cases hgov : containsSub "GOVERNMENT CANADA".data (upStr description) = true
    · by_cases hc : 0 < credit
      · exfalso
        simp only [classify_transaction, if_pos hgov, if_pos hc] at heli
        simp [CATEGORIES, ITC_FULL_CATEGORIES] at heli
      · exfalso
        simp only [classify_transaction, if_pos hgov, if_neg hc] at heli
        simp [CATEGORIES, ITC_FULL_CATEGORIES] at heli
    · rcases hm : firstRuleMatch (upStr description) with _ | r
      · by_cases hc : 0 < credit
        · exfalso
          simp only [classify_transaction, if_neg hgov, hm, if_pos hc] at heli
          simp [CATEGORIES, ITC_FULL_CATEGORIES] at heli
        · simp only [classify_transaction, if_neg hgov, hm, if_neg hc] at heli hper ⊢
          have hrate : (CATEGORIES "Other Expense").itc_rate = 1 := by
            simp [CATEGORIES, ITC_FULL_CATEGORIES]
          rw [hrate, mul_one]
      · simp only [classify_transaction, if_neg hgov, hm] at heli hper ⊢
        rw [if_pos ⟨heli, hd, hper⟩]
  · have h1 : containsSub "GOVERNMENT CANADA".data (upStr "SHELL GAS BAR") = false := by
      decide
    have h2 : firstRuleMatch (upStr "SHELL GAS BAR") =
        some ⟨lits ["PETRO-CANADA", "PETRO CANADA", "SHELL", "ESSO", "CHEVRON", "CENTEX",
          "MOBIL", "DOMO GAS"], "Fuel & Petroleum", false, false⟩ := by decide
    simp [classify_transaction, h1, h2]
  · have h1 : containsSub "GOVERNMENT CANADA".data (upStr "SHELL GAS BAR") = false := by
      decide
    have h2 : firstRuleMatch (upStr "SHELL GAS BAR") =
        some ⟨lits ["PETRO-CANADA", "PETRO CANADA", "SHELL", "ESSO", "CHEVRON", "CENTEX",
          "MOBIL", "DOMO GAS"], "Fuel & Petroleum", false, false⟩ := by decide
    simp [classify_transaction, h1, h2, CATEGORIES, ITC_FULL_CATEGORIES]
    norm_num [GST_RATE, round2, roundHalfEven, qfloor]
  · have h1 : containsSub "GOVERNMENT CANADA".data (upStr "TIM HORTONS #123") = false := by
      decide
    have h2 : firstRuleMatch (upStr "TIM HORTONS #123") =
        some ⟨lits ["TIM HORTONS"], "Meals & Entertainment (50%)", false, false⟩ := by decide
    simp [classify_transaction, h1, h2]
  · have h1 : containsSub "GOVERNMENT CANADA".data (upStr "TIM HORTONS #123") = false := by
      decide
    have h2 : firstRuleMatch (upStr "TIM HORTONS #123") =
        some ⟨lits ["TIM HORTONS"], "Meals & Entertainment (50%)", false, false⟩ := by decide
    simp [classify_transaction, h1, h2, CATEGORIES, ITC_FULL_CATEGORIES]
    norm_num [GST_RATE, round2, roundHalfEven, qfloor]

/-- Witness for claim3_itc_formula: its universal part instantiated at the
SHELL scenario, hypotheses discharged concretely. -/
theorem claim3_itc_formula_witness :
    (CATEGORIES (classify_transaction "SHELL GAS BAR" 105 0).cra_category).itc_eligible
      = true ∧
    (classify_transaction "SHELL GAS BAR" 105 0).itc_amount =
      round2 (105 * (GST_RATE / (1 + GST_RATE)) *
        (CATEGORIES (classify_transaction "SHELL GAS BAR" 105 0).cra_category).itc_rate) := by
  have hcat := claim3_itc_formula.2.1
  have heli : (CATEGORIES (classify_transaction "SHELL GAS BAR" 105 0).cra_category).itc_eligible
      = true := by rw [hcat]; rfl
  have hper : (classify_transaction "SHELL GAS BAR" 105 0).is_personal = false := by
    have h1 : containsSub "GOVERNMENT CANADA".data (upStr "SHELL GAS BAR") = false := by
      decide
    have h2 : firstRuleMatch (upStr "SHELL GAS BAR") =
        some ⟨lits ["PETRO-CANADA", "PETRO CANADA", "SHELL", "ESSO", "CHEVRON", "CENTEX",
          "MOBIL", "DOMO GAS"], "Fuel & Petroleum", false, false⟩ := by decide
    simp [classify_transaction, h1, h2]
  exact ⟨heli, claim3_itc_formula.1 "SHELL GAS BAR" 105 0 heli hper (by norm_num)⟩

/- ### Claim C2 -/

/-- Claim C2 counterexample: the description ZZZ matches no classification
rule, yet the classifier does not return the sentinel with itc_amount 0: a
105.00 debit is classified Other Expense with itc_amount 5.00, and an
unmatched credit is classified Revenue - Oilfield Services, not
Other/Uncategorized. -/
theorem claim2_counterexample :
    firstRuleMatch (upStr "ZZZ") = none ∧
    classify_transaction "ZZZ" 105 0 =
      ⟨"Other Expense", false, true, 5, "Unclassified - review"⟩ ∧
    (classify_transaction "ZZZ" 105 0).itc_amount ≠ 0 ∧
    classify_transaction "ZZZ" 0 50 =
      ⟨"Revenue - Oilfield Services", false, true, 0, "Unclassified credit - review"⟩ := by
  have h1 : containsSub "GOVERNMENT CANADA".data (upStr "ZZZ") = false := by decide
  have h2 : firstRuleMatch (upStr "ZZZ") = none := by decide
  have h3 : classify_transaction "ZZZ" 105 0 =
      ⟨"Other Expense", false, true, 5, "Unclassified - review"⟩ := by
    simp [classify_transaction, h1, h2]
    norm_num [GST_RATE, round2, roundHalfEven, qfloor]
  refine ⟨h2, h3, ?_, ?_⟩
  · rw [h3]; norm_num
  · simp [classify_transaction, h1, h2]

/-- Claim C2 amended: when no rule matches (and the GOVERNMENT CANADA special
case does not apply), a positive-credit transaction is classified
Revenue - Oilfield Services with needs_review and itc_amount 0, and any other
transaction is classified Other Expense with needs_review and
itc_amount = round2(debit * 0.05/1.05), which is nonzero for most positive
debits. -/
theorem claim2_amended (description : String) (debit credit : ℚ)
    (hm : firstRuleMatch (upStr description) = none)
    (hg : containsSub "GOVERNMENT CANADA".data (upStr description) = false) :
    (0 < credit → classify_transaction description debit credit =
       ⟨"Revenue - Oilfield Services", false, true, 0, "Unclassified credit - review"⟩) ∧
    (¬ 0 < credit → classify_transaction description debit credit =
       ⟨"Other Expense", false, true, round2 (debit * (GST_RATE / (1 + GST_RATE))),
        "Unclassified - review"⟩) := by
  constructor
  · intro hc
    simp [classify_transaction, hm, hg, hc]
  · intro hc
    simp [classify_transaction, hm, hg, hc]

/-- Witness for claim2_amended at the concrete unmatched debit ZZZ/105. -/
theorem claim2_amended_witness :
    ¬ (0:ℚ) < 0 ∧ classify_transaction "ZZZ" 105 0 =
      ⟨"Other Expense", false, true, round2 (105 * (GST_RATE / (1 + GST_RATE))),
       "Unclassified - review"⟩ :=
  ⟨by norm_num, (claim2_amended "ZZZ" 105 0 (by decide) (by decide)).2 (by norm_num)⟩

/- ### Claim C7 -/

/-- Claim C7 counterexample: a 0.11 debit at SHELL stores itc_amount 0.01
after two-decimal rounding, which exceeds the embedded-GST bound
0.11 * 0.05/1.05 of roughly 0.00524. -/
theorem claim7_counterexample :
    (classify_transaction "SHELL" (11/100) 0).itc_amount = 1/100 ∧
    ¬ (classify_transaction "SHELL" (11/100) 0).itc_amount ≤
        (11/100) * (GST_RATE / (1 + GST_RATE)) := by
  have h1 : containsSub "GOVERNMENT CANADA".data (upStr "SHELL") = false := by decide
  have h2 : firstRuleMatch (upStr "SHELL") =
      some ⟨lits ["PETRO-CANADA", "PETRO CANADA", "SHELL", "ESSO", "CHEVRON", "CENTEX",
        "MOBIL", "DOMO GAS"], "Fuel & Petroleum", false, false⟩ := by decide
  have h3 : (classify_transaction "SHELL" (11/100) 0).itc_amount = 1/100 := by
    simp [classify_transaction, h1, h2, CATEGORIES, ITC_FULL_CATEGORIES]
    norm_num [GST_RATE, round2, roundHalfEven, qfloor]
  refine ⟨h3, ?_⟩
  rw [h3]
  norm_num [GST_RATE]

/-- Claim C7 amended: for every transaction with a nonnegative debit the
stored itc_amount satisfies 0 <= itc_amount <= round2(debit * 0.05/1.05): the
bound holds against the two-decimal rounding of the maximum embedded GST
rather than against the raw product. -/
theorem claim7_amended (description : String) (debit credit : ℚ) (hd : 0 ≤ debit) :
    0 ≤ (classify_transaction description debit credit).itc_amount ∧
    (classify_transaction description debit credit).itc_amount ≤
      round2 (debit * (GST_RATE / (1 + GST_RATE))) := by
  have hc : (0:ℚ) ≤ GST_RATE / (1 + GST_RATE) := by norm_num [GST_RATE]
  have hb0 : (0:ℚ) ≤ debit * (GST_RATE / (1 + GST_RATE)) := mul_nonneg hd hc
  have hr0 : (0:ℚ) ≤ round2 (debit * (GST_RATE / (1 + GST_RATE))) := round2_nonneg hb0
  have hz : (0:ℚ) ≤ round2 0 := round2_nonneg le_rfl
  have hz2 : round2 0 ≤ round2 (debit * (GST_RATE / (1 + GST_RATE))) := round2_mono hb0
  by_cases hgov : containsSub "GOVERNMENT CANADA".data (upStr description) = true
  · by_cases hcr : 0 < credit
    · simp only [classify_transaction, if_pos hgov, if_pos hcr]
      exact ⟨le_rfl, hr0⟩
    · simp only [classify_transaction, if_pos hgov, if_neg hcr]
      exact ⟨le_rfl, hr0⟩
  · rcases hm : firstRuleMatch (upStr description) with _ | r
    · by_cases hcr : 0 < credit
      · simp only [classify_transaction, if_neg hgov, hm, if_pos hcr]
        exact ⟨le_rfl, hr0⟩
      · simp only [classify_transaction, if_neg hgov, hm, if_neg hcr]
        exact ⟨round2_nonneg hb0, le_rfl⟩
    · simp only [classify_transaction, if_neg hgov, hm]
      by_cases hcond : (CATEGORIES r.category).itc_eligible = true ∧ 0 < debit ∧
          r.is_personal = false
      · rw [if_pos hcond]
        constructor
        · exact round2_nonneg (mul_nonneg hb0 (CATEGORIES_rate_nonneg r.category))
        · exact round2_mono
            (mul_le_of_le_one_right hb0 (CATEGORIES_rate_le_one r.category))
      · rw [if_neg hcond]
        exact ⟨hz, hz2⟩

/-- Witness for claim7_amended at the SHELL 105.00 scenario. -/
theorem claim7_amended_witness :
    (0:ℚ) ≤ 105 ∧
    0 ≤ (classify_transaction "SHELL GAS BAR" 105 0).itc_amount ∧
    (classify_transaction "SHELL GAS BAR" 105 0).itc_amount ≤
      round2 (105 * (GST_RATE / (1 + GST_RATE))) :=
  ⟨by norm_num, claim7_amended "SHELL GAS BAR" 105 0 (by norm_num)⟩

/- ### Claim C1 -/

/-- A classified bank row carrying the Scenario 5 revenue of 10000
(GST-inclusive), as produced by the classifier for a wire deposit. -/
def exampleRevRow : Row :=
  ⟨"2025-01-15", "WIRE TSF IN CLIENT PAY", 0, 10000, "Revenue - Oilfield Services",
   false, false, 0, "", 0⟩

/-- A classified fuel expense row carrying an itc_amount of 300 (the Scenario
5 ITC total). -/
def exampleItcRow : Row :=
  ⟨"2025-02-01", "BULK FUEL", 6300, 0, "Fuel & Petroleum", false, false, 300, "", 0⟩

/-- Claim C1 counterexample: from the same revenue total of 10000 the GST
period aggregator computes gst_collected = round2(10000 * 0.05/1.05) = 476.19
while the GST Filing page computes revenue * 0.05 = 500; the two disagree, so
the inclusive convention is not used consistently. -/
theorem claim1_counterexample :
    (calculate_period [exampleRevRow] none none).total_revenue = 10000 ∧
    page_revenue [exampleRevRow] = 10000 ∧
    (calculate_period [exampleRevRow] none none).gst_collected = 47619/100 ∧
    page_gst_collected [exampleRevRow] = 500 ∧
    (calculate_period [exampleRevRow] none none).gst_collected ≠
      page_gst_collected [exampleRevRow] := by
  refine ⟨?_, ?_, ?_, ?_, ?_⟩ <;>
    · simp only [calculate_period, filterPeriod, taxableRevenueSum, exemptRevenueSum,
        groupITC, TAXABLE_REVENUE_CATEGORIES, EXEMPT_REVENUE_CATEGORIES, exampleRevRow,
        page_revenue, page_gst_collected, List.filter, List.map, List.sum]
      norm_num [GST_RATE, round2, roundHalfEven, qfloor]

/-- Claim C1 amended: GSTCalculator.calculate_period computes gst_collected
with the GST-inclusive convention round2(R * 0.05/1.05) from its taxable
revenue total R, while the GST Filing page computes gst_collected with the
GST-exclusive convention R * 0.05 from its all-credits revenue total; on the
Scenario 5 figures (revenue 10000, ITC total 300) the aggregator reports
gst_collected = 476.19 and net_gst = 176.19 owing. -/
theorem claim1_amended :
    (∀ (df : List Row) (sd ed : Option String),
      (calculate_period df sd ed).gst_collected =
        round2 (spec_gst_inclusive (taxableRevenueSum (filterPeriod df sd ed)))) ∧
    (∀ df : List Row, page_gst_collected df = spec_gst_exclusive (page_revenue df)) ∧
    (calculate_period [exampleRevRow, exampleItcRow] none none).gst_collected
      = 47619/100 ∧
    (calculate_period [exampleRevRow, exampleItcRow] none none).total_itc = 300 ∧
    (calculate_period [exampleRevRow, exampleItcRow] none none).net_gst = 17619/100 := by
  refine ⟨fun df sd ed => rfl, fun df => rfl, ?_, ?_, ?_⟩ <;>
    · simp only [calculate_period, filterPeriod, taxableRevenueSum, exemptRevenueSum,
        groupITC, TAXABLE_REVENUE_CATEGORIES, EXEMPT_REVENUE_CATEGORIES, exampleRevRow,
        exampleItcRow, List.filter, List.map, List.sum]
      norm_num [GST_RATE, round2, roundHalfEven, qfloor]

/- ### Claim C4 -/

/-- A credit whose description carries both the wire and the mobile keyword. -/
def exampleDoubleRow : Row :=
  ⟨"2025-03-03", "WIRE TSF MOBILE DEPOSIT", 0, 100, "", false, false, 0, "", 0⟩

/-- Claim C4 counterexample: in revenue_simple.calculate_revenue the channel
masks are independent, so a 100.00 credit matching both the wire and the
mobile keyword set appears in both channel DataFrames and is double-counted:
the reported total is 200, not 100. -/
theorem claim4_counterexample :
    exampleDoubleRow ∈ (calculate_revenue [exampleDoubleRow]).wire_df ∧
    exampleDoubleRow ∈ (calculate_revenue [exampleDoubleRow]).mobile_df ∧
    (calculate_revenue [exampleDoubleRow]).total = 200 ∧
    (calculate_revenue [exampleDoubleRow]).total ≠ 100 := by
  have h1 : (calculate_revenue [exampleDoubleRow]).wire_df = [exampleDoubleRow] := by
    decide
  have h2 : (calculate_revenue [exampleDoubleRow]).mobile_df = [exampleDoubleRow] := by
    decide
  have h3 : (calculate_revenue [exampleDoubleRow]).branch_df = [] := by decide
  have h4 : (calculate_revenue [exampleDoubleRow]).total =
      ([exampleDoubleRow].map fun r => r.credit).sum +
      ([exampleDoubleRow].map fun r => r.credit).sum +
      (([] : List Row).map fun r => r.credit).sum := by
    show ((calculate_revenue [exampleDoubleRow]).wire_df.map fun r => r.credit).sum +
        ((calculate_revenue [exampleDoubleRow]).mobile_df.map fun r => r.credit).sum +
        ((calculate_revenue [exampleDoubleRow]).branch_df.map fun r => r.credit).sum = _
    rw [h1, h2, h3]
  refine ⟨by rw [h1]; exact List.mem_singleton.mpr rfl,
          by rw [h2]; exact List.mem_singleton.mpr rfl, ?_, ?_⟩ <;>
    · rw [h4]
      simp only [List.map, List.sum, exampleDoubleRow]
      norm_num

/-- Claim C4 amended: the five channel masks of the app.py Revenue page are
mutually exclusive and exhaustive (each mask excludes all rows claimed by an
earlier one, in the order wire, mobile, branch, e-transfer, other), so no
credit row is counted in more than one channel total there; but
revenue_simple.calculate_revenue evaluates its three channel masks
independently and double-counts a row matching two keyword sets. -/
theorem claim4_amended (d : String) :
    (List.count true
      [wire_mask d, mobile_mask d, branch_mask d, etransfer_mask d, other_mask d]) = 1 := by
  rcases hw : wireK d with _ | _ <;> rcases hm : mobileK d with _ | _ <;>
    rcases hb : branchK d with _ | _ <;> rcases he : etransK d with _ | _ <;>
    simp [wire_mask, mobile_mask, branch_mask, etransfer_mask, other_mask,
      hw, hm, hb, he, List.count_cons]

/-- Witness for claim4_amended: there is no hypothesis, but the instance at a
wire description evaluates concretely. -/
theorem claim4_amended_witness :
    (List.count true
      [wire_mask "WIRE TSF IN", mobile_mask "WIRE TSF IN", branch_mask "WIRE TSF IN",
       etransfer_mask "WIRE TSF IN", other_mask "WIRE TSF IN"]) = 1 :=
  claim4_amended "WIRE TSF IN"

/- ### Claim C5 -/

/-- First of two rows agreeing in date, description and credit but not debit. -/
def exampleKeyRowA : Row :=
  ⟨"2025-03-03", "WIRE TSF FROM CLIENT", 1, 5000, "", false, false, 0, "", 0⟩

/-- Second of two rows agreeing in date, description and credit but not debit. -/
def exampleKeyRowB : Row :=
  ⟨"2025-03-03", "WIRE TSF FROM CLIENT", 2, 5000, "", false, false, 0, "", 0⟩

/-- The exact Scenario 3 duplicate row. -/
def exampleDupRow : Row :=
  ⟨"2025-03-03", "WIRE TSF FROM CLIENT", 0, 5000, "", false, false, 0, "", 0⟩

/-- Claim C5 counterexample: deduplication is not keyed on
(date, credit amount, description): two rows identical in those three fields
but with different debits are both kept, so the wire total is 10000, not
5000. -/
theorem claim5_counterexample :
    exampleKeyRowA.date = exampleKeyRowB.date ∧
    exampleKeyRowA.credit = exampleKeyRowB.credit ∧
    exampleKeyRowA.description = exampleKeyRowB.description ∧
    (calculate_revenue [exampleKeyRowA, exampleKeyRowB]).wire_total = 10000 ∧
    (calculate_revenue [exampleKeyRowA, exampleKeyRowB]).wire_total ≠ 5000 := by
  have h1 : (calculate_revenue [exampleKeyRowA, exampleKeyRowB]).wire_df =
      [exampleKeyRowA, exampleKeyRowB] := by decide
  have h2 : (calculate_revenue [exampleKeyRowA, exampleKeyRowB]).wire_total =
      ([exampleKeyRowA, exampleKeyRowB].map fun r => r.credit).sum := by
    show ((calculate_revenue [exampleKeyRowA, exampleKeyRowB]).wire_df.map
      fun r => r.credit).sum = _
    rw [h1]
  refine ⟨rfl, rfl, rfl, ?_, ?_⟩ <;>
    · rw [h2]
      simp only [List.map, List.sum, exampleKeyRowA, exampleKeyRowB]
      norm_num

theorem dedupFullAux_nodup (l : List Row) (seen : List Row) :
    (dedupFullAux seen l).Nodup ∧ ∀ r ∈ dedupFullAux seen l, r ∉ seen := by
  induction l generalizing seen with
  | nil => simp [dedupFullAux]
  | cons r rest ih =>
      rw [dedupFullAux]
      by_cases h : r ∈ seen
      · rw [if_pos h]; exact ih seen
      · rw [if_neg h]
        obtain ⟨ih1, ih2⟩ := ih (r :: seen)
        refine ⟨List.nodup_cons.mpr ⟨fun hmem => ih2 r hmem (List.mem_cons_self r _), ih1⟩, ?_⟩
        intro x hx
        rcases List.mem_cons.mp hx with rfl | hx2
        · exact h
        · exact fun hxseen => ih2 x hx2 (List.mem_cons_of_mem _ hxseen)

theorem dedupFull_nodup (l : List Row) : (dedupFull l).Nodup :=
  (dedupFullAux_nodup l []).1

/-- Claim C5 amended: revenue_simple.calculate_revenue deduplicates each
channel over entire rows (all columns, keeping the first occurrence), not
over (date, credit, description); each channel DataFrame therefore carries no
two fully identical rows, and the Scenario 3 pair of fully identical 5000.00
wire rows contributes a single 5000.00 row to the wire channel. -/
theorem claim5_amended :
    (∀ df : List Row,
      (calculate_revenue df).wire_df.Nodup ∧
      (calculate_revenue df).mobile_df.Nodup ∧
      (calculate_revenue df).branch_df.Nodup) ∧
    (calculate_revenue [exampleDupRow, exampleDupRow]).wire_df = [exampleDupRow] ∧
    (calculate_revenue [exampleDupRow, exampleDupRow]).wire_count = 1 ∧
    (calculate_revenue [exampleDupRow, exampleDupRow]).wire_total = 5000 := by
  have h1 : (calculate_revenue [exampleDupRow, exampleDupRow]).wire_df =
      [exampleDupRow] := by decide
  have h2 : (calculate_revenue [exampleDupRow, exampleDupRow]).wire_total =
      ([exampleDupRow].map fun r => r.credit).sum := by
    show ((calculate_revenue [exampleDupRow, exampleDupRow]).wire_df.map
      fun r => r.credit).sum = _
    rw [h1]
  refine ⟨fun df => ⟨dedupFull_nodup _, dedupFull_nodup _, dedupFull_nodup _⟩,
    h1, by decide, ?_⟩
  rw [h2]
  simp only [List.map, List.sum, exampleDupRow]
  norm_num

/- ### Claims C6 and C10: batch classification -/

theorem rowKey_classifyRow (r : Row) : rowKey (classifyRow r) = rowKey r := rfl

theorem classifyRow_classifyRow (r : Row) : classifyRow (classifyRow r) = classifyRow r := rfl

theorem app_classifyRow_app_classifyRow (r : Row) :
    app_classifyRow (app_classifyRow r) = app_classifyRow r := rfl

theorem dedupKeyAux_keys (l : List Row) (seen : List (String × String × ℚ × ℚ)) :
    ((dedupKeyAux seen l).map rowKey).Nodup ∧
    ∀ k ∈ (dedupKeyAux seen l).map rowKey, k ∉ seen := by
  induction l generalizing seen with
  | nil => simp [dedupKeyAux]
  | cons r rest ih =>
      rw [dedupKeyAux]
      by_cases h : rowKey r ∈ seen
      · rw [if_pos h]; exact ih seen
      · rw [if_neg h]
        obtain ⟨ih1, ih2⟩ := ih (rowKey r :: seen)
        refine ⟨?_, ?_⟩
        · rw [List.map_cons]
          exact List.nodup_cons.mpr
            ⟨fun hmem => ih2 _ hmem (List.mem_cons_self _ _), ih1⟩
        · intro k hk
          rw [List.map_cons] at hk
          rcases List.mem_cons.mp hk with rfl | hk2
          · exact h
          · exact fun hkseen => ih2 k hk2 (List.mem_cons_of_mem _ hkseen)

theorem dedupKeyAux_eq_self (l : List Row) (seen : List (String × String × ℚ × ℚ))
    (h1 : (l.map rowKey).Nodup) (h2 : ∀ k ∈ l.map rowKey, k ∉ seen) :
    dedupKeyAux seen l = l := by
  induction l generalizing seen with
  | nil => rfl
  | cons r rest ih =>
      rw [List.map_cons, List.nodup_cons] at h1
      rw [dedupKeyAux, if_neg (h2 (rowKey r) (by simp))]
      congr 1
      refine ih (rowKey r :: seen) h1.2 ?_
      intro k hk
      intro hmem
      rcases List.mem_cons.mp hmem with rfl | hseen
      · exact h1.1 hk
      · exact h2 k (List.mem_cons_of_mem _ hk) hseen

theorem dedupKey_keys_nodup (l : List Row) : ((dedupKey l).map rowKey).Nodup :=
  (dedupKeyAux_keys l []).1

theorem dedupKeyAux_length_le (l : List Row) (seen : List (String × String × ℚ × ℚ)) :
    (dedupKeyAux seen l).length ≤ l.length := by
  induction l generalizing seen with
  | nil => simp [dedupKeyAux]
  | cons r rest ih =>
      rw [dedupKeyAux]
      by_cases h : rowKey r ∈ seen
      · rw [if_pos h]
        exact Nat.le_succ_of_le (ih seen)
      · rw [if_neg h, List.length_cons]
        exact Nat.succ_le_succ (ih _)

/-- Keys are untouched by classification, so mapping the classifier over an
already key-deduplicated list leaves it a fixed point of dedupKey. -/
theorem dedupKey_map_classifyRow (df : List Row) :
    dedupKey ((dedupKey df).map classifyRow) = (dedupKey df).map classifyRow := by
  have hk : (((dedupKey df).map classifyRow).map rowKey).Nodup := by
    rw [List.map_map]
    have hcomp : rowKey ∘ classifyRow = rowKey := funext fun r => rfl
    rw [hcomp]
    exact dedupKey_keys_nodup df
  exact dedupKeyAux_eq_self _ [] hk (by simp)

/-- Claim C6: batch classification is idempotent for both the
TransactionClassifier.classify_dataframe pipeline and the inline app.py
classify_dataframe, and each row's classification is a function of that row's
own description, debit and credit alone. -/
theorem claim6_idempotent :
    (∀ df : List Row, classify_dataframe (classify_dataframe df) = classify_dataframe df) ∧
    (∀ df : List Row,
      app_classify_dataframe (app_classify_dataframe df) = app_classify_dataframe df) ∧
    (∀ r1 r2 : Row, r1.description = r2.description → r1.debit = r2.debit →
      r1.credit = r2.credit →
      (classifyRow r1).cra_category = (classifyRow r2).cra_category ∧
      (classifyRow r1).is_personal = (classifyRow r2).is_personal ∧
      (classifyRow r1).needs_review = (classifyRow r2).needs_review ∧
      (classifyRow r1).itc_amount = (classifyRow r2).itc_amount ∧
      (classifyRow r1).notes = (classifyRow r2).notes) := by
  refine ⟨?_, ?_, ?_⟩
  · intro df
    show (dedupKey ((dedupKey df).map classifyRow)).map classifyRow
      = (dedupKey df).map classifyRow
    rw [dedupKey_map_classifyRow, List.map_map]
    exact List.map_congr_left fun r _ => classifyRow_classifyRow r
  · intro df
    show (df.map app_classifyRow).map app_classifyRow = df.map app_classifyRow
    rw [List.map_map]
    exact List.map_congr_left fun r _ => app_classifyRow_app_classifyRow r
  · intro r1 r2 hdesc hdeb hcred
    simp only [classifyRow, hdesc, hdeb, hcred]
    exact ⟨trivial, trivial, trivial, trivial, trivial⟩

/-- Witness for claim6_idempotent: the row-independence part applied to two
rows sharing description, debit and credit but nothing else. -/
theorem claim6_idempotent_witness :
    (classifyRow ⟨"2025-03-01", "SHELL GAS BAR", 105, 0, "", false, false, 0, "", 0⟩).itc_amount
      = (classifyRow ⟨"2025-04-02", "SHELL GAS BAR", 105, 0, "x", true, true, 7, "n", 1⟩).itc_amount :=
  (claim6_idempotent.2.2
    ⟨"2025-03-01", "SHELL GAS BAR", 105, 0, "", false, false, 0, "", 0⟩
    ⟨"2025-04-02", "SHELL GAS BAR", 105, 0, "x", true, true, 7, "n", 1⟩
    rfl rfl rfl).2.2.2.1

/-- Claim C10: classify_dataframe deduplicates its input on the exact key
(date, description, debit, credit) keeping first occurrences before
classifying, so the classified output has pairwise distinct keys, never more
rows than the input, and a fully duplicated bank line reaches the output only
once. -/
theorem claim10_dedup :
    (∀ df : List Row, classify_dataframe df = (dedupKey df).map classifyRow) ∧
    (∀ df : List Row, ((classify_dataframe df).map rowKey).Nodup) ∧
    (∀ df : List Row, (classify_dataframe df).length ≤ df.length) ∧
    classify_dataframe [exampleDupRow, exampleDupRow] = [classifyRow exampleDupRow] := by
  refine ⟨fun df => rfl, ?_, ?_, ?_⟩
  · intro df
    show (((dedupKey df).map classifyRow).map rowKey).Nodup
    rw [List.map_map]
    have hcomp : rowKey ∘ classifyRow = rowKey := funext fun r => rfl
    rw [hcomp]
    exact dedupKey_keys_nodup df
  · intro df
    show ((dedupKey df).map classifyRow).length ≤ df.length
    rw [List.length_map]
    exact dedupKeyAux_length_le df []
  · show (dedupKey [exampleDupRow, exampleDupRow]).map classifyRow = [classifyRow exampleDupRow]
    have h : dedupKey [exampleDupRow, exampleDupRow] = [exampleDupRow] := by decide
    rw [h, List.map_singleton]

/- ### Claim C8 -/

/-- An ATM withdrawal with no payee indicator. -/
def exampleAtmRow : Row :=
  ⟨"2025-01-05", "ATM WITHDRAWAL 00123", 100, 0, "", false, false, 0, "", 0⟩

/-- Claim C8 counterexample: a 100.00 ATM withdrawal that cannot be
attributed to a shareholder is booked in full to Greg's withdrawals and not
split 51/49 across the shareholders: Lilibeth receives nothing, whichever
shareholder process_transfers is run for. -/
theorem claim8_counterexample :
    (process_transfers [exampleAtmRow] "Lilibeth").greg_withdrawals = 100 ∧
    (process_transfers [exampleAtmRow] "Lilibeth").lilibeth_withdrawals = 0 ∧
    (process_transfers [exampleAtmRow] "Greg").greg_withdrawals = 100 ∧
    (100:ℚ) ≠ 100 * (51/100) ∧ (100:ℚ) ≠ 100 * (49/100) := by
  have ha : (atmLoop [exampleAtmRow]).1 = 100 := by
    simp only [atmLoop, exampleAtmRow]
    rw [if_pos ⟨by decide, by norm_num⟩]
    norm_num
  have htl : (transferLoop LILIBETH_TRANSFER_PATTERNS [exampleAtmRow]).1 = 0 := by
    simp only [transferLoop, exampleAtmRow]
    rw [if_neg fun h => absurd h.1 (by decide)]
  have htg : (transferLoop GREG_TRANSFER_PATTERNS [exampleAtmRow]).1 = 0 := by
    simp only [transferLoop, exampleAtmRow]
    rw [if_neg fun h => absurd h.1 (by decide)]
  have h1 : (process_transfers [exampleAtmRow] "Lilibeth").greg_withdrawals
      = (atmLoop [exampleAtmRow]).1 := rfl
  have h2 : (process_transfers [exampleAtmRow] "Lilibeth").lilibeth_withdrawals
      = (transferLoop LILIBETH_TRANSFER_PATTERNS [exampleAtmRow]).1 := rfl
  have h3 : (process_transfers [exampleAtmRow] "Greg").greg_withdrawals
      = (transferLoop GREG_TRANSFER_PATTERNS [exampleAtmRow]).1
        + (atmLoop [exampleAtmRow]).1 := rfl
  refine ⟨by rw [h1, ha], by rw [h2, htl], by rw [h3, htg, ha]; norm_num,
    by norm_num, by norm_num⟩

theorem personalBase_nil : personalBase [] = 0 := rfl

theorem personalBase_cons (r : Row) (rest : List Row) :
    personalBase (r :: rest) =
      if r.debit ≠ 0 ∧ (personalCat r.description).isSome then r.debit + personalBase rest
      else personalBase rest := by
  simp only [personalBase, List.filter_cons, decide_eq_true_eq]
  split_ifs with h
  · simp
  · rfl

/-- Claim C8 amended: transactions that the tracker cannot attribute to an
individual are handled two ways.  Personal expenses matched by
PERSONAL_EXPENSE_PATTERNS are split by ownership percentage, 49% to Greg and
51% to Lilibeth, and every such allocation carries the ownership-split review
note.  ATM/ABM withdrawals are not split: process_transfers books the whole
amount to Greg's withdrawals (for either shareholder argument), marking each
with a review note instead. -/
theorem claim8_amended :
    (∀ df : List Row,
      (process_personal_expenses df).greg_personal = (49/100) * personalBase df ∧
      (process_personal_expenses df).lilibeth_personal = (51/100) * personalBase df ∧
      (∀ t ∈ (process_personal_expenses df).greg_txns, t.note = splitNote) ∧
      (∀ t ∈ (process_personal_expenses df).lilibeth_txns, t.note = splitNote)) ∧
    (∀ (df : List Row) (s : String),
      (process_transfers df s).greg_withdrawals =
        (if s = "Greg" then (transferLoop GREG_TRANSFER_PATTERNS df).1 else 0)
          + (atmLoop df).1 ∧
      (process_transfers df s).lilibeth_withdrawals =
        (if s = "Greg" then 0 else (transferLoop LILIBETH_TRANSFER_PATTERNS df).1)) ∧
    (∀ df : List Row, ∀ t ∈ (atmLoop df).2,
      t.note = "Review: Assign to correct shareholder") := by
  refine ⟨?_, ?_, ?_⟩
  · intro df
    induction df with
    | nil =>
        refine ⟨by norm_num [process_personal_expenses, personalBase_nil], by
          norm_num [process_personal_expenses, personalBase_nil], ?_, ?_⟩ <;>
          simp [process_personal_expenses]
    | cons r rest ih =>
        obtain ⟨ih1, ih2, ih3, ih4⟩ := ih
        rw [process_personal_expenses, personalBase_cons]
        by_cases hz : r.debit = 0
        · rw [if_pos hz, if_neg (fun h => h.1 hz)]
          exact ⟨ih1, ih2, ih3, ih4⟩
        · rcases hp : personalCat r.description with _ | cat
          · rw [if_neg hz, if_neg (fun h => by simpa using h.2)]
            exact ⟨ih1, ih2, ih3, ih4⟩
          · rw [if_neg hz, if_pos ⟨hz, rfl⟩]
            refine ⟨?_, ?_, fun t ht => ?_, fun t ht => ?_⟩
            · show r.debit * (49/100) + (process_personal_expenses rest).greg_personal = _
              rw [ih1]; ring
            · show r.debit * (51/100) + (process_personal_expenses rest).lilibeth_personal = _
              rw [ih2]; ring
            · rcases List.mem_cons.mp ht with rfl | ht2
              · rfl
              · exact ih3 t ht2
            · rcases List.mem_cons.mp ht with rfl | ht2
              · rfl
              · exact ih4 t ht2
  · intro df s
    by_cases hs : s = "Greg"
    · constructor
      · show (process_transfers df s).greg_withdrawals = _
        rw [if_pos hs]
        simp only [process_transfers, if_pos hs]
      · show (process_transfers df s).lilibeth_withdrawals = _
        rw [if_pos hs]
        simp only [process_transfers, if_pos hs]
    · constructor
      · show (process_transfers df s).greg_withdrawals = _
        rw [if_neg hs, zero_add]
        simp only [process_transfers, if_neg hs]
      · show (process_transfers df s).lilibeth_withdrawals = _
        rw [if_neg hs]
        simp only [process_transfers, if_neg hs]
  · intro df
    induction df with
    | nil => simp [atmLoop]
    | cons r rest ih =>
        rw [atmLoop]
        by_cases h : (containsSub "ATM WITHDRAWAL".data (upStr r.description)
            || containsSub "ABM WITHDRAWAL".data (upStr r.description)) = true
            ∧ 0 < r.debit
        · rw [if_pos h]
          intro t ht
          rcases List.mem_cons.mp ht with rfl | ht2
          · rfl
          · exact ih t ht2
        · rw [if_neg h]
          exact ih
/-- Witness for claim8_amended: the ATM review-note clause applied to the
transaction the ATM loop generates for the concrete withdrawal row. -/
theorem claim8_amended_witness :
    (⟨"2025-01-05", "ATM WITHDRAWAL 00123", "Cash Withdrawal (ATM)", 100,
      "Corporate Account", "Review: Assign to correct shareholder"⟩ : STxn)
      ∈ (atmLoop [exampleAtmRow]).2 ∧
    (⟨"2025-01-05", "ATM WITHDRAWAL 00123", "Cash Withdrawal (ATM)", 100,
      "Corporate Account", "Review: Assign to correct shareholder"⟩ : STxn).note
      = "Review: Assign to correct shareholder" :=
  ⟨by decide, claim8_amended.2.2 [exampleAtmRow] _ (by decide)⟩

/- ### Claim C9 -/

/-- A well-formed expense row of the same batch as the malformed records. -/
def exampleValidRow : Row :=
  ⟨"2025-03-01", "SHELL GAS BAR", 105, 0, "", false, false, 0, "", 0⟩

/-- A malformed record: debit and credit both zero. -/
def exampleMalformedRow : Row :=
  ⟨"2025-03-05", "QQQQ", 0, 0, "", false, false, 0, "", 0⟩

/-- Claim C9 counterexample: the classifier never rejects a malformed record
with an error signal; the all-zero record receives the ordinary
classification Other Expense with needs_review, flows through
classify_dataframe next to the valid record, and a negative-debit record is
even classified with a negative itc_amount of -2.38. -/
theorem claim9_counterexample :
    classify_transaction "QQQQ" 0 0 =
      ⟨"Other Expense", false, true, 0, "Unclassified - review"⟩ ∧
    (classify_dataframe [exampleValidRow, exampleMalformedRow]).length = 2 ∧
    (classify_transaction "QQQQ" (-50) 0).itc_amount = -238/100 ∧
    (classify_transaction "QQQQ" (-50) 0).itc_amount < 0 := by
  have h1 : containsSub "GOVERNMENT CANADA".data (upStr "QQQQ") = false := by decide
  have h2 : firstRuleMatch (upStr "QQQQ") = none := by decide
  have h3 : (classify_transaction "QQQQ" (-50) 0).itc_amount = -238/100 := by
    simp [classify_transaction, h1, h2]
    norm_num [GST_RATE, round2, roundHalfEven, qfloor]
  refine ⟨?_, by decide, h3, by rw [h3]; norm_num⟩
  simp [classify_transaction, h1, h2]
  norm_num [GST_RATE, round2, roundHalfEven, qfloor]

/-- Claim C9 amended: malformed records are not rejected and nothing like a
MalformedRecordError exists: classification is total, every deduplicated
record of a batch (malformed or not) appears classified in the output, an
all-zero record is classified Other Expense with needs_review = true and
itc_amount 0, and a negative-debit record is classified with a negative
itc_amount rather than refused. -/
theorem claim9_amended :
    (∀ df : List Row, ∀ r ∈ dedupKey df, classifyRow r ∈ classify_dataframe df) ∧
    classify_transaction "QQQQ" 0 0 =
      ⟨"Other Expense", false, true, 0, "Unclassified - review"⟩ ∧
    (classify_transaction "QQQQ" (-50) 0).itc_amount = -238/100 := by
  have h1 : containsSub "GOVERNMENT CANADA".data (upStr "QQQQ") = false := by decide
  have h2 : firstRuleMatch (upStr "QQQQ") = none := by decide
  refine ⟨fun df r hr => List.mem_map_of_mem classifyRow hr, ?_, ?_⟩ <;>
    · simp [classify_transaction, h1, h2]
      norm_num [GST_RATE, round2, roundHalfEven, qfloor]

/-- Witness for claim9_amended: the totality clause applied to the malformed
record in a concrete batch. -/
theorem claim9_amended_witness :
    exampleMalformedRow ∈ dedupKey [exampleValidRow, exampleMalformedRow] ∧
    classifyRow exampleMalformedRow ∈
      classify_dataframe [exampleValidRow, exampleMalformedRow] :=
  ⟨by decide, claim9_amended.1 [exampleValidRow, exampleMalformedRow]
    exampleMalformedRow (by decide)⟩

end RigBooks

